import Mathlib

/-!
Verification of the webmesh control plane against its specification.

The Go sources are shallowly embedded: each function under scrutiny is
translated into an executable Lean definition over explicit environment
records (results of storage, consensus and network calls are inputs), and
the side effects the functions issue (consensus membership operations,
registry writes, plugin events) are returned as explicit action lists.

Sections:
* mesh store observer (`newObserver` in pkg/mesh, src/unnamed/part_001)
* Join RPC (pkg/services/node/server_join.go)
* DeleteNetworkACL admin RPC (pkg/services/admin)
* campfire rendezvous (pkg/campfire/campfire.go)
-/

namespace Webmesh

/-! ## Mesh store observer (`newObserver`, src/unnamed/part_001)

The observer closes over a `failedHeartBeats` map (modelled as a total
function `String → Int`, Go map lookups defaulting to 0 and `delete`
resetting to 0) and dispatches on the observation type.  Bookkeeping it
reads from the surrounding `meshStore` is gathered in `ObsEnv`; results of
the fallible calls it makes (`raft.RemoveServer`, `peers.Delete`,
`peers.Get`) are environment fields as well. -/

/-- raft server suffrage (`raft.Voter`, `raft.Nonvoter`, `raft.Staging`). -/
inductive Suffrage
  | voter
  | nonvoter
  | staging
deriving DecidableEq, Repr

/-- `v1.WatchEvent` values used by the observer. -/
inductive WatchEventType
  | nodeJoin
  | nodeLeave
  | leaderChange
deriving DecidableEq, Repr

/-- `v1.ClusterStatus` values used by the observer. -/
inductive ClusterStatus
  | unknown
  | voter
  | nonVoter
  | leader
deriving DecidableEq, Repr

/-- A plugin event as emitted by the observer: the event type, the node
record it carries (`node.Proto(...)`, kept opaque as the record looked up
from the database) and the cluster status placed in the serialized node. -/
structure EmittedEvent where
  type : WatchEventType
  node : String
  status : ClusterStatus
deriving DecidableEq, Repr

/-- Side effects the observer callback can issue, in program order. -/
inductive ObsAction
  | removeServer (id : String) (force : Bool)
  | peersDelete (id : String)
  | refreshPeers
  | emit (e : EmittedEvent)
deriving DecidableEq, Repr

/-- The fields of `meshStore` the observer callback reads, together with
the outcomes of the fallible calls it performs (indexed by peer id). -/
structure ObsEnv where
  heartbeatPurgeThreshold : Int
  isLeader : Bool
  removeServerOk : String → Bool
  peersDeleteOk : String → Bool
  testStore : Bool
  nodeID : String
  hasWatchers : Bool
  peerGet : String → Option String

/-- `raft.FailedHeartbeatObservation` branch of `newObserver`
(src/unnamed/part_001 lines 37-54).  Returns the updated
`failedHeartBeats` map and the actions issued.  If the threshold is not
positive the event is ignored.  Otherwise the counter is incremented; when
it reaches the threshold on the leader, `RemoveServer(pid, force=true)` is
issued.  On `RemoveServer` failure the handler returns early (counter
retained, no `peers.Delete`).  Otherwise `peers.Delete(pid)` is issued and
the counter entry is deleted — also when `peers.Delete` fails, since the
Go code only logs that error and falls through to `delete`. -/
def observeFailedHeartbeat (env : ObsEnv) (fhb : String → Int) (pid : String) :
    (String → Int) × List ObsAction :=
  if env.heartbeatPurgeThreshold ≤ 0 then
    (fhb, [])
  else
    let cnt : Int := fhb pid + 1
    let fhb1 : String → Int := fun x => if x = pid then cnt else fhb x
    if env.heartbeatPurgeThreshold ≤ cnt ∧ env.isLeader = true then
      if env.removeServerOk pid = false then
        (fhb1, [ObsAction.removeServer pid true])
      else
        (fun x => if x = pid then 0 else fhb1 x,
          [ObsAction.removeServer pid true, ObsAction.peersDelete pid])
    else
      (fhb1, [])

/-- `raft.ResumedHeartbeatObservation` branch (lines 55-58): the counter
entry is deleted when the purge feature is enabled. -/
def observeResumedHeartbeat (env : ObsEnv) (fhb : String → Int) (pid : String) :
    (String → Int) × List ObsAction :=
  if 0 < env.heartbeatPurgeThreshold then
    (fun x => if x = pid then 0 else fhb x, [])
  else
    (fhb, [])

/-- `raft.PeerObservation` branch (lines 59-98): skipped for test stores
and for observations about the local node; otherwise a peer-table refresh
is issued (its failure is only logged), and with plugin watchers
registered the node record is looked up and a join/leave event emitted. -/
def observePeer (env : ObsEnv) (pid : String) (sfg : Suffrage) (removed : Bool) :
    List ObsAction :=
  if env.testStore = true then []
  else if pid = env.nodeID then []
  else
    ObsAction.refreshPeers ::
      (if env.hasWatchers = true then
        match env.peerGet pid with
        | none => []
        | some node =>
            [ObsAction.emit
              { type := if removed = true then WatchEventType.nodeLeave
                        else WatchEventType.nodeJoin
                node := node
                status :=
                  if removed = true then ClusterStatus.unknown
                  else if sfg = Suffrage.nonvoter then ClusterStatus.nonVoter
                  else ClusterStatus.voter }]
      else [])

/-- `raft.LeaderObservation` branch (lines 99-117): with watchers
registered, the leader record is looked up (a miss only logged) and a
leader-change event emitted with status leader. -/
def observeLeader (env : ObsEnv) (lid : String) : List ObsAction :=
  if env.hasWatchers = true then
    match env.peerGet lid with
    | none => []
    | some node =>
        [ObsAction.emit
          { type := WatchEventType.leaderChange
            node := node
            status := ClusterStatus.leader }]
  else []

/-- The raft observations dispatched by the observer callback. -/
inductive Observation
  | failedHeartbeat (pid : String)
  | resumedHeartbeat (pid : String)
  | peerChange (pid : String) (sfg : Suffrage) (removed : Bool)
  | leaderChange (lid : String)

/-- The single observer callback installed by the mesh store: dispatch on
the observation type, threading the `failedHeartBeats` map. -/
def observe (env : ObsEnv) (fhb : String → Int) :
    Observation → (String → Int) × List ObsAction
  | Observation.failedHeartbeat pid => observeFailedHeartbeat env fhb pid
  | Observation.resumedHeartbeat pid => observeResumedHeartbeat env fhb pid
  | Observation.peerChange pid sfg removed => (fhb, observePeer env pid sfg removed)
  | Observation.leaderChange lid => (fhb, observeLeader env lid)

/-- C1: with a positive purge threshold, the purge is initiated
(`RemoveServer(pid, force=true)` issued, and, when `RemoveServer`
succeeds, followed by `peers.Delete(pid)`) iff the incremented counter has
reached the threshold and the local node is the leader; on a follower no
action is issued however large the counter; with a non-positive threshold
the event is ignored entirely (no counter change, no actions). -/
theorem observer_heartbeat_purge_gating (env : ObsEnv) (fhb : String → Int) (pid : String) :
    (env.heartbeatPurgeThreshold ≤ 0 →
      observeFailedHeartbeat env fhb pid = (fhb, [])) ∧
    (0 < env.heartbeatPurgeThreshold →
      ((ObsAction.removeServer pid true ∈ (observeFailedHeartbeat env fhb pid).2) ↔
        (env.heartbeatPurgeThreshold ≤ fhb pid + 1 ∧ env.isLeader = true)) ∧
      (env.isLeader = false → (observeFailedHeartbeat env fhb pid).2 = []) ∧
      (env.removeServerOk pid = true →
        ((observeFailedHeartbeat env fhb pid).2 =
            [ObsAction.removeServer pid true, ObsAction.peersDelete pid] ↔
          (env.heartbeatPurgeThreshold ≤ fhb pid + 1 ∧ env.isLeader = true)))) := by
  unfold observeFailedHeartbeat
  constructor
  · intro h
    simp [h]
  · intro hpos
    have hnot : ¬ env.heartbeatPurgeThreshold ≤ 0 := by omega
    simp only [if_neg hnot]
    by_cases hcond : env.heartbeatPurgeThreshold ≤ fhb pid + 1 ∧ env.isLeader = true
    · refine ⟨?_, ?_, ?_⟩
      · simp [hcond]
        by_cases hrm : env.removeServerOk pid = false <;> simp [hrm]
      · intro hfollow
        exact absurd hcond (by simp [hfollow])
      · intro hrm
        simp [hcond, hrm]
    · refine ⟨?_, ?_, ?_⟩
      · simp [hcond]
      · intro _
        simp [hcond]
      · intro hrm
        simp [hcond]

/-- Concrete check of `observer_heartbeat_purge_gating`: threshold 3,
leader, counter at 2, so the third failed heartbeat purges peer `b`. -/
def obsEnvW : ObsEnv :=
  { heartbeatPurgeThreshold := 3
    isLeader := true
    removeServerOk := fun _ => true
    peersDeleteOk := fun _ => true
    testStore := false
    nodeID := "self"
    hasWatchers := true
    peerGet := fun _ => none }

/-- Counter map holding 2 failed heartbeats for peer `b`. -/
def fhbW : String → Int := fun x => if x = "b" then 2 else 0

theorem observer_heartbeat_purge_gating_witness :
    (0 : Int) < obsEnvW.heartbeatPurgeThreshold ∧
    obsEnvW.removeServerOk "b" = true ∧
    (observeFailedHeartbeat obsEnvW fhbW "b").2 =
      [ObsAction.removeServer "b" true, ObsAction.peersDelete "b"] :=
  ⟨by decide, by decide,
    (((observer_heartbeat_purge_gating obsEnvW fhbW "b").2 (by decide)).2.2
        (by decide)).mpr ⟨by decide, by decide⟩⟩

/-- Environment for the C2 counterexample: threshold 1, leader,
`RemoveServer` succeeds but `peers.Delete` fails for peer `b`. -/
def obsEnvC2 : ObsEnv :=
  { heartbeatPurgeThreshold := 1
    isLeader := true
    removeServerOk := fun _ => true
    peersDeleteOk := fun x => !(x == "b")
    testStore := false
    nodeID := "self"
    hasWatchers := false
    peerGet := fun _ => none }

/-- C2 counterexample: when the purge fires for peer `b`, `RemoveServer`
succeeds and `peers.Delete` fails, the claim says the counter is retained
(value 1 after the increment); the code clears it to 0 anyway, because the
`peers.Delete` error is only logged before the `delete` statement runs. -/
theorem observer_delete_failure_clears_counter_counterexample :
    obsEnvC2.peersDeleteOk "b" = false ∧
    (observeFailedHeartbeat obsEnvC2 (fun _ => 0) "b").2 =
      [ObsAction.removeServer "b" true, ObsAction.peersDelete "b"] ∧
    (observeFailedHeartbeat obsEnvC2 (fun _ => 0) "b").1 "b" = 0 ∧
    ¬ (observeFailedHeartbeat obsEnvC2 (fun _ => 0) "b").1 "b" = 1 := by
  refine ⟨by decide, by decide, by decide, by decide⟩

/-- C2 amended: when the purge is triggered, a `RemoveServer` failure is
logged, `peers.Delete` is not attempted and the counter is retained at its
incremented value, so the next failed heartbeat retries; but after a
successful `RemoveServer`, the counter is cleared even when the subsequent
`peers.Delete` fails (only the `RemoveServer` failure is retried). -/
theorem observer_purge_failure_counter (env : ObsEnv) (fhb : String → Int) (pid : String)
    (hpos : 0 < env.heartbeatPurgeThreshold)
    (htr : env.heartbeatPurgeThreshold ≤ fhb pid + 1)
    (hl : env.isLeader = true) :
    (env.removeServerOk pid = false →
      (observeFailedHeartbeat env fhb pid).1 pid = fhb pid + 1 ∧
      (observeFailedHeartbeat env fhb pid).2 = [ObsAction.removeServer pid true]) ∧
    (env.removeServerOk pid = true →
      (observeFailedHeartbeat env fhb pid).1 pid = 0 ∧
      (observeFailedHeartbeat env fhb pid).2 =
        [ObsAction.removeServer pid true, ObsAction.peersDelete pid]) := by
  unfold observeFailedHeartbeat
  have hnot : ¬ env.heartbeatPurgeThreshold ≤ 0 := by omega
  constructor
  · intro hrm
    simp [hnot, htr, hl, hrm]
  · intro hrm
    simp [hnot, htr, hl, hrm]

theorem observer_purge_failure_counter_witness :
    (0 : Int) < obsEnvC2.heartbeatPurgeThreshold ∧
    obsEnvC2.removeServerOk "b" = true ∧
    (observeFailedHeartbeat obsEnvC2 (fun _ => 0) "b").1 "b" = 0 :=
  ⟨by decide, by decide,
    ((observer_purge_failure_counter obsEnvC2 (fun _ => 0) "b"
        (by decide) (by decide) (by decide)).2 (by decide)).1⟩

/-- C7: for a peer-change observation about another node, with plugin
watchers registered and the node record found, any emitted event is
exactly the one the spec describes (leave/unknown when removed, otherwise
join with non-voter / voter derived from suffrage), and on a production
(non-test) store that event is indeed emitted. -/
theorem observer_peer_change_event (env : ObsEnv) (pid : String) (sfg : Suffrage)
    (removed : Bool) (node : String)
    (hself : ¬ pid = env.nodeID) (hw : env.hasWatchers = true)
    (hget : env.peerGet pid = some node) :
    (∀ e, ObsAction.emit e ∈ observePeer env pid sfg removed →
      e = { type := if removed = true then WatchEventType.nodeLeave
                    else WatchEventType.nodeJoin
            node := node
            status :=
              if removed = true then ClusterStatus.unknown
              else if sfg = Suffrage.nonvoter then ClusterStatus.nonVoter
              else ClusterStatus.voter }) ∧
    (env.testStore = false →
      ObsAction.emit
        { type := if removed = true then WatchEventType.nodeLeave
                  else WatchEventType.nodeJoin
          node := node
          status :=
            if removed = true then ClusterStatus.unknown
            else if sfg = Suffrage.nonvoter then ClusterStatus.nonVoter
            else ClusterStatus.voter } ∈ observePeer env pid sfg removed) := by
  unfold observePeer
  by_cases hts : env.testStore = true
  · constructor
    · intro e he
      simp [hts] at he
    · intro hts2
      rw [hts2] at hts
      exact absurd hts (by simp)
  · have hts2 : env.testStore = false := by
      cases h : env.testStore
      · rfl
      · exact absurd h hts
    constructor
    · intro e he
      simp [hts2, hself, hw, hget] at he
      exact he
    · intro _
      simp [hts2, hself, hw, hget]

/-- Environment for the C7 witness: watchers registered, node record for
peer `b` found. -/
def obsEnvC7 : ObsEnv :=
  { heartbeatPurgeThreshold := 0
    isLeader := false
    removeServerOk := fun _ => true
    peersDeleteOk := fun _ => true
    testStore := false
    nodeID := "self"
    hasWatchers := true
    peerGet := fun x => if x = "b" then some "node-b" else none }

theorem observer_peer_change_event_witness :
    ObsAction.emit
      { type := WatchEventType.nodeJoin
        node := "node-b"
        status := ClusterStatus.nonVoter } ∈
      observePeer obsEnvC7 "b" Suffrage.nonvoter false := by
  have h := (observer_peer_change_event obsEnvC7 "b" Suffrage.nonvoter false "node-b"
    (by decide) (by decide) (by decide)).2 (by decide)
  simpa using h

/-! ## Join RPC (pkg/services/node/server_join.go)

The RPC is embedded as a function from an environment (leader flag,
cached ULA prefix, results of database / IPAM / raft calls) and the
request to an outcome: the gRPC result plus the node-registry writes and
raft membership operations performed, in program order. -/

/-- gRPC status codes used by the embedded handlers. -/
inductive Code
  | failedPrecondition
  | invalidArgument
  | permissionDenied
  | internal
deriving DecidableEq, Repr

/-- `netip.Prefix`: an address plus a bit count.  The zero value renders
its address as Go's invalid-IP form. -/
structure IPPrefix where
  addr : String
  bits : Nat
deriving DecidableEq, Repr

/-- `Prefix.String()`. -/
def IPPrefix.render (p : IPPrefix) : String := p.addr ++ "/" ++ toString p.bits

/-- The zero `netip.Prefix` (its `Addr().String()` is "invalid IP"). -/
def zeroIPPrefix : IPPrefix := { addr := "invalid IP", bits := 0 }

/-- `net.JoinHostPort`: brackets the host when it contains a colon (the
check is written over the character list so that it evaluates inside the
kernel). -/
def joinHostPort (host : String) (port : Int) : String :=
  if host.data.any (fun c => c == ':') then "[" ++ host ++ "]:" ++ toString port
  else host ++ ":" ++ toString port

/-- `peers.Node` as used by the Join handler.  `primaryEndpoint` is
`none` for the invalid (zero) `netip.Addr`. -/
structure PeerNode where
  id : String
  publicKey : String
  primaryEndpoint : Option String
  endpoints : List String
  grpcPort : Int
  raftPort : Int
  wireguardPort : Int
  networkIPv6 : IPPrefix
  privateIPv4 : Option IPPrefix
deriving DecidableEq, Repr

/-- `v1.JoinRequest`. -/
structure JoinRequest where
  id : String
  publicKey : String
  primaryEndpoint : String
  endpoints : List String
  grpcPort : Int
  raftPort : Int
  wireguardPort : Int
  assignIpv4 : Bool
  preferRaftIpv6 : Bool
  asVoter : Bool
deriving DecidableEq, Repr

/-- `v1.WireguardPeer` as rendered into the response. -/
structure WireguardPeer where
  id : String
  publicKey : String
  primaryEndpoint : String
  endpoints : List String
  addressIpv4 : String
  addressIpv6 : String
deriving DecidableEq, Repr

/-- `v1.JoinResponse`. -/
structure JoinResponse where
  networkIpv6 : String
  addressIpv4 : String
  peers : List WireguardPeer
deriving DecidableEq, Repr

/-- Outcome of `peers.Get`: found, not found (`peers.ErrNodeNotFound`),
or another database error. -/
inductive GetResult
  | found (n : PeerNode)
  | notFound
  | dbError (msg : String)
deriving DecidableEq, Repr

/-- Node-registry writes issued by the handler (`peers.Update`,
`peers.Create`; the create options carry the same fields as the node). -/
inductive RegistryWrite
  | update (n : PeerNode)
  | create (n : PeerNode)
deriving DecidableEq, Repr

/-- Raft membership operations issued by the handler. -/
inductive RaftOp
  | addVoter (id : String) (address : String)
  | addNonVoter (id : String) (address : String)
deriving DecidableEq, Repr

/-- The transport address carried by a raft membership operation. -/
def RaftOp.address : RaftOp → String
  | RaftOp.addVoter _ a => a
  | RaftOp.addNonVoter _ a => a

/-- Environment of the Join handler: server state and the results of the
calls it makes. -/
structure JoinEnv where
  isLeader : Bool
  ulaPrefix : Option IPPrefix
  getULAPrefix : Except String IPPrefix
  parseKey : String → Except String String
  parseAddr : String → Except String String
  peersGet : String → GetResult
  random64 : IPPrefix → Except String IPPrefix
  updateResult : PeerNode → Except String PeerNode
  createResult : PeerNode → Except String PeerNode
  ipamAcquire : String → Except String IPPrefix
  listPeers : String → Except String (List PeerNode)
  addVoterOk : String → String → Bool
  addNonVoterOk : String → String → Bool

deriving instance DecidableEq for Except

/-- Result of the Join handler: the RPC result together with the registry
writes and raft operations performed. -/
structure JoinOutcome where
  result : Except (Code × String) JoinResponse
  writes : List RegistryWrite
  raftOps : List RaftOp
deriving DecidableEq, Repr

/-- The validated inputs of lines 50-74: parsed public key, optional
parsed primary endpoint, parsed additional endpoints. -/
structure ValidInputs where
  publicKey : String
  primaryEndpoint : Option String
  endpoints : List String
deriving DecidableEq, Repr

/-- The endpoint-parsing loop of lines 65-74. -/
def parseEndpointList (parse : String → Except String String) :
    List String → Except String (List String)
  | [] => Except.ok []
  | e :: rest =>
    match parse e with
    | Except.error m => Except.error m
    | Except.ok a =>
      match parseEndpointList parse rest with
      | Except.error m => Except.error m
      | Except.ok tail => Except.ok (a :: tail)

/-- Input validation, lines 50-74: empty id, unparseable public key and
unparseable endpoints are `InvalidArgument`. -/
def joinValidate (env : JoinEnv) (req : JoinRequest) :
    Except (Code × String) ValidInputs :=
  if req.id = "" then Except.error (Code.invalidArgument, "node id required")
  else
    match env.parseKey req.publicKey with
    | Except.error m => Except.error (Code.invalidArgument, "invalid public key: " ++ m)
    | Except.ok pk =>
      match (if req.primaryEndpoint = "" then Except.ok none
             else match env.parseAddr req.primaryEndpoint with
                  | Except.error m =>
                      Except.error ("invalid primary endpoint: " ++ m)
                  | Except.ok a => Except.ok (some a)) with
      | Except.error m => Except.error (Code.invalidArgument, m)
      | Except.ok pe =>
        match parseEndpointList env.parseAddr req.endpoints with
        | Except.error m => Except.error (Code.invalidArgument, "invalid endpoint: " ++ m)
        | Except.ok eps =>
            Except.ok { publicKey := pk, primaryEndpoint := pe, endpoints := eps }

/-- Field-wise update of an existing record, lines 87-104: each field is
assigned when it differs from the request (the primary endpoint only when
the request carried a valid one). -/
def applyUpdates (peer : PeerNode) (req : JoinRequest) (v : ValidInputs) : PeerNode :=
  let p := if ¬ peer.publicKey = v.publicKey then
             { peer with publicKey := v.publicKey } else peer
  let p := if ¬ p.grpcPort = req.grpcPort then { p with grpcPort := req.grpcPort } else p
  let p := if ¬ p.raftPort = req.raftPort then { p with raftPort := req.raftPort } else p
  let p := if ¬ p.wireguardPort = req.wireguardPort then
             { p with wireguardPort := req.wireguardPort } else p
  let p := match v.primaryEndpoint with
           | some a => if ¬ some a = p.primaryEndpoint then
                         { p with primaryEndpoint := some a } else p
           | none => p
  let p := if ¬ p.endpoints = v.endpoints then { p with endpoints := v.endpoints } else p
  p

/-- Upsert of the node record, lines 78-129: an existing record is
updated field-wise and unconditionally written back with `peers.Update`;
a missing record gets a fresh IPv6 inside the ULA prefix and is created.
Database errors other than not-found are `Internal`. -/
def joinUpsert (env : JoinEnv) (req : JoinRequest) (ula : IPPrefix) (v : ValidInputs) :
    Except (Code × String) PeerNode × List RegistryWrite :=
  match env.peersGet req.id with
  | GetResult.dbError m =>
      (Except.error (Code.internal, "failed to get peer: " ++ m), [])
  | GetResult.found peer0 =>
      let p1 := applyUpdates peer0 req v
      match env.updateResult p1 with
      | Except.error m =>
          (Except.error (Code.internal, "failed to update peer: " ++ m),
            [RegistryWrite.update p1])
      | Except.ok p => (Except.ok p, [RegistryWrite.update p1])
  | GetResult.notFound =>
      match env.random64 ula with
      | Except.error m =>
          (Except.error (Code.internal, "failed to generate IPv6 address: " ++ m), [])
      | Except.ok net6 =>
          let opts : PeerNode :=
            { id := req.id
              publicKey := v.publicKey
              primaryEndpoint := v.primaryEndpoint
              endpoints := v.endpoints
              grpcPort := req.grpcPort
              raftPort := req.raftPort
              wireguardPort := req.wireguardPort
              networkIPv6 := net6
              privateIPv4 := none }
          match env.createResult opts with
          | Except.error m =>
              (Except.error (Code.internal, "failed to create peer: " ++ m),
                [RegistryWrite.create opts])
          | Except.ok p => (Except.ok p, [RegistryWrite.create opts])

/-- Rendering of a wireguard peer into the response, lines 180-221. -/
def renderWireguardPeer (p : PeerNode) : WireguardPeer :=
  { id := p.id
    publicKey := p.publicKey
    primaryEndpoint :=
      match p.primaryEndpoint with
      | some a => joinHostPort a p.wireguardPort
      | none => ""
    endpoints := p.endpoints.map (fun a => joinHostPort a p.wireguardPort)
    addressIpv4 :=
      match p.privateIPv4 with
      | some l => l.render
      | none => ""
    addressIpv6 :=
      if ¬ p.networkIPv6.addr = "invalid IP" then p.networkIPv6.render else "" }

/-- Lines 150-161, the `raftAddress` local: the just-acquired IPv4 lease
when the request set `assignIpv4` and not `preferRaftIpv6`, otherwise the
node's overlay IPv6, each joined with the node's raft port. -/
def raftAddressFor (req : JoinRequest) (peer : PeerNode) (lease : IPPrefix) : String :=
  if req.assignIpv4 = true ∧ req.preferRaftIpv6 = false then
    joinHostPort lease.addr peer.raftPort
  else joinHostPort peer.networkIPv6.addr peer.raftPort

/-- Lines 145-222 after the optional IPv4 assignment: list the current
peers (excluding the joiner), compute the raft transport address, and add
the node as voter or non-voter before composing the response. -/
def joinFinish (env : JoinEnv) (req : JoinRequest) (peer : PeerNode)
    (writes : List RegistryWrite) (lease : IPPrefix) (leaseRendered : String) :
    JoinOutcome :=
  match env.listPeers req.id with
  | Except.error m =>
      { result := Except.error (Code.internal, "failed to list peers: " ++ m)
        writes := writes
        raftOps := [] }
  | Except.ok wgpeers =>
      if req.asVoter = true then
        if env.addVoterOk req.id (raftAddressFor req peer lease) = false then
          { result := Except.error (Code.internal, "failed to add candidate")
            writes := writes
            raftOps := [RaftOp.addVoter req.id (raftAddressFor req peer lease)] }
        else
          { result := Except.ok
              { networkIpv6 := peer.networkIPv6.render
                addressIpv4 := leaseRendered
                peers := wgpeers.map renderWireguardPeer }
            writes := writes
            raftOps := [RaftOp.addVoter req.id (raftAddressFor req peer lease)] }
      else
        if env.addNonVoterOk req.id (raftAddressFor req peer lease) = false then
          { result := Except.error (Code.internal, "failed to add non-voter")
            writes := writes
            raftOps := [RaftOp.addNonVoter req.id (raftAddressFor req peer lease)] }
        else
          { result := Except.ok
              { networkIpv6 := peer.networkIPv6.render
                addressIpv4 := leaseRendered
                peers := wgpeers.map renderWireguardPeer }
            writes := writes
            raftOps := [RaftOp.addNonVoter req.id (raftAddressFor req peer lease)] }

/-- Lines 131-222: response construction after the upsert.  With
`assignIpv4` set, the IPAM allocator acquires a lease (failure is
`Internal`) and its rendering is placed in the response; otherwise the
lease variable keeps Go's zero `netip.Prefix` and the `AddressIpv4` field
stays empty. -/
def afterUpsert (env : JoinEnv) (req : JoinRequest) (peer : PeerNode)
    (writes : List RegistryWrite) : JoinOutcome :=
  if req.assignIpv4 = true then
    match env.ipamAcquire req.id with
    | Except.error m =>
        { result := Except.error (Code.internal, "failed to assign IPv4: " ++ m)
          writes := writes
          raftOps := [] }
    | Except.ok lease => joinFinish env req peer writes lease lease.render
  else joinFinish env req peer writes zeroIPPrefix ""

/-- The Join RPC, lines 37-223.  Order of the Go code: leader check
(`FailedPrecondition`), lazy ULA-prefix resolution (`Internal` on
failure), input validation, upsert, IPv4 assignment, peer listing, raft
membership change, response. -/
def Join (env : JoinEnv) (req : JoinRequest) : JoinOutcome :=
  if env.isLeader = false then
    { result := Except.error (Code.failedPrecondition, "not leader")
      writes := []
      raftOps := [] }
  else
    match (match env.ulaPrefix with
           | some p => Except.ok p
           | none => env.getULAPrefix) with
    | Except.error m =>
        { result := Except.error (Code.internal, "failed to get ULA prefix: " ++ m)
          writes := []
          raftOps := [] }
    | Except.ok ula =>
        match joinValidate env req with
        | Except.error c => { result := Except.error c, writes := [], raftOps := [] }
        | Except.ok v =>
            match joinUpsert env req ula v with
            | (Except.error c, ws) =>
                { result := Except.error c, writes := ws, raftOps := [] }
            | (Except.ok peer, ws) => afterUpsert env req peer ws

/-- Helper: whenever `joinFinish` issued a raft membership operation, its
transport address is the one computed by `raftAddressFor`. -/
theorem joinFinish_raft_address (env : JoinEnv) (req : JoinRequest) (peer : PeerNode)
    (writes : List RegistryWrite) (lease : IPPrefix) (lr : String) (op : RaftOp)
    (hop : (joinFinish env req peer writes lease lr).raftOps = [op]) :
    op.address = raftAddressFor req peer lease := by
  unfold joinFinish at hop
  cases hlp : env.listPeers req.id with
  | error m =>
      rw [hlp] at hop
      simp at hop
  | ok wg =>
      rw [hlp] at hop
      by_cases hv : req.asVoter = true
      · simp only [hv, if_true] at hop
        by_cases hok : env.addVoterOk req.id (raftAddressFor req peer lease) = false
        · simp only [hok, if_true] at hop
          simp at hop
          subst hop
          rfl
        · simp only [hok, if_false] at hop
          simp at hop
          subst hop
          rfl
      · simp only [hv, if_false] at hop
        by_cases hok : env.addNonVoterOk req.id (raftAddressFor req peer lease) = false
        · simp only [hok, if_true] at hop
          simp at hop
          subst hop
          rfl
        · simp only [hok, if_false] at hop
          simp at hop
          subst hop
          rfl

/-- C3 amended: the raft transport address placed in the membership
operation is `overlayV4(lease):raftPort` exactly when the request set
`assignIpv4` (the lease acquired in this call) and did not set
`preferRaftIpv6`; in every other case — including a node that still holds
an IPAM lease from an earlier join but did not set `assignIpv4` now — it
is `overlayV6:raftPort`. -/
theorem join_raft_address_by_request_flags (env : JoinEnv) (req : JoinRequest)
    (peer : PeerNode) (writes : List RegistryWrite) (op : RaftOp)
    (hop : (afterUpsert env req peer writes).raftOps = [op]) :
    ((req.assignIpv4 = true ∧ req.preferRaftIpv6 = false) →
      ∀ l, env.ipamAcquire req.id = Except.ok l →
        op.address = joinHostPort l.addr peer.raftPort) ∧
    (¬ (req.assignIpv4 = true ∧ req.preferRaftIpv6 = false) →
      op.address = joinHostPort peer.networkIPv6.addr peer.raftPort) := by
  by_cases ha : req.assignIpv4 = true
  · cases hacq : env.ipamAcquire req.id with
    | error m =>
        unfold afterUpsert at hop
        rw [if_pos ha, hacq] at hop
        simp at hop
    | ok lease =>
        unfold afterUpsert at hop
        rw [if_pos ha, hacq] at hop
        have haddr := joinFinish_raft_address env req peer writes lease lease.render op hop
        constructor
        · intro hc l hl
          injection hl with hll
          subst hll
          rw [haddr]
          unfold raftAddressFor
          rw [if_pos hc]
        · intro hc
          rw [haddr]
          unfold raftAddressFor
          rw [if_neg hc]
  · unfold afterUpsert at hop
    rw [if_neg ha] at hop
    have haddr := joinFinish_raft_address env req peer writes zeroIPPrefix "" op hop
    constructor
    · intro hc
      exact absurd hc.1 ha
    · intro hc
      rw [haddr]
      unfold raftAddressFor
      rw [if_neg hc]

/-- Node and environment for the C3 counterexample and witness. -/
def peerC3 : PeerNode :=
  { id := "a"
    publicKey := "pk-a"
    primaryEndpoint := none
    endpoints := []
    grpcPort := 8443
    raftPort := 9443
    wireguardPort := 51820
    networkIPv6 := { addr := "fd00::aaaa", bits := 112 }
    privateIPv4 := some { addr := "172.16.0.9", bits := 32 } }

def joinEnvC3 : JoinEnv :=
  { isLeader := true
    ulaPrefix := some { addr := "fd00::", bits := 48 }
    getULAPrefix := Except.error "unused"
    parseKey := fun k => Except.ok k
    parseAddr := fun a => Except.ok a
    peersGet := fun x => if x = "a" then GetResult.found peerC3 else GetResult.notFound
    random64 := fun _ => Except.ok { addr := "fd00::ffff", bits := 112 }
    updateResult := fun p => Except.ok p
    createResult := fun p => Except.ok p
    ipamAcquire := fun _ => Except.ok { addr := "172.16.0.9", bits := 32 }
    listPeers := fun _ => Except.ok []
    addVoterOk := fun _ _ => true
    addNonVoterOk := fun _ _ => true }

def reqC3 : JoinRequest :=
  { id := "a"
    publicKey := "pk-a"
    primaryEndpoint := ""
    endpoints := []
    grpcPort := 8443
    raftPort := 9443
    wireguardPort := 51820
    assignIpv4 := false
    preferRaftIpv6 := false
    asVoter := true }

/-- C3 counterexample: node `a` holds an IPv4 lease (both in its record
and in the IPAM allocator) and the request does not prefer IPv6 for raft,
yet — because the request did not set `assignIpv4` — the handler places
the overlay IPv6 address in `AddVoter`, not the IPv4 lease.  The decision
at line 152 tests `req.GetAssignIpv4()`, not lease possession. -/
theorem join_raft_address_counterexample :
    peerC3.privateIPv4 = some { addr := "172.16.0.9", bits := 32 } ∧
    joinEnvC3.ipamAcquire "a" = Except.ok { addr := "172.16.0.9", bits := 32 } ∧
    reqC3.preferRaftIpv6 = false ∧
    (Join joinEnvC3 reqC3).raftOps = [RaftOp.addVoter "a" "[fd00::aaaa]:9443"] ∧
    ¬ (Join joinEnvC3 reqC3).raftOps = [RaftOp.addVoter "a" "172.16.0.9:9443"] := by
  refine ⟨by decide, by decide, by decide, by decide, by decide⟩

/-- The lease acquired in the C3 witness run. -/
def leaseW3 : IPPrefix := { addr := "172.16.0.5", bits := 32 }

def reqW3 : JoinRequest :=
  { id := "w"
    publicKey := "pk-w"
    primaryEndpoint := ""
    endpoints := []
    grpcPort := 8443
    raftPort := 9443
    wireguardPort := 51820
    assignIpv4 := true
    preferRaftIpv6 := false
    asVoter := true }

def joinEnvW3 : JoinEnv :=
  { joinEnvC3 with ipamAcquire := fun _ => Except.ok leaseW3 }

theorem join_raft_address_by_request_flags_witness :
    reqW3.assignIpv4 = true ∧ reqW3.preferRaftIpv6 = false ∧
    (afterUpsert joinEnvW3 reqW3 peerC3 []).raftOps =
      [RaftOp.addVoter "w" "172.16.0.5:9443"] ∧
    (RaftOp.addVoter "w" "172.16.0.5:9443").address =
      joinHostPort leaseW3.addr peerC3.raftPort :=
  ⟨rfl, rfl, by decide,
    (join_raft_address_by_request_flags joinEnvW3 reqW3 peerC3 []
        (RaftOp.addVoter "w" "172.16.0.5:9443") (by decide)).1
      ⟨rfl, rfl⟩ leaseW3 rfl⟩

/-- C4 amended: when the Join request names an existing record, the
handler applies the request fields to it one by one (each assignment
guarded by a difference check) and then unconditionally writes the record
back with `peers.Update`; when the stored record already matches the
request, the written record equals the stored one — but the write still
happens. -/
theorem join_upsert_always_writes (env : JoinEnv) (req : JoinRequest)
    (ula : IPPrefix) (v : ValidInputs) (peer0 : PeerNode)
    (hget : env.peersGet req.id = GetResult.found peer0) :
    (joinUpsert env req ula v).2 = [RegistryWrite.update (applyUpdates peer0 req v)] ∧
    (peer0.publicKey = v.publicKey →
      peer0.grpcPort = req.grpcPort →
      peer0.raftPort = req.raftPort →
      peer0.wireguardPort = req.wireguardPort →
      (v.primaryEndpoint = none ∨ v.primaryEndpoint = peer0.primaryEndpoint) →
      peer0.endpoints = v.endpoints →
      applyUpdates peer0 req v = peer0) := by
  constructor
  · unfold joinUpsert
    rw [hget]
    cases hup : env.updateResult (applyUpdates peer0 req v) <;> simp [hup]
  · intro h1 h2 h3 h4 h5 h6
    unfold applyUpdates
    rcases h5 with hn | hs
    · simp [h1, h2, h3, h4, hn, h6]
    · rw [hs]
      cases hpe : peer0.primaryEndpoint with
      | none => simp [h1, h2, h3, h4, h6, hpe]
      | some a => simp [h1, h2, h3, h4, h6, hpe]

/-- The stored record for the C4 counterexample, field-for-field equal to
what the repeated request carries. -/
def peerC4 : PeerNode :=
  { id := "a"
    publicKey := "pk-a"
    primaryEndpoint := some "203.0.113.4"
    endpoints := ["203.0.113.4"]
    grpcPort := 8443
    raftPort := 9443
    wireguardPort := 51820
    networkIPv6 := { addr := "fd00::a", bits := 112 }
    privateIPv4 := none }

def reqC4 : JoinRequest :=
  { id := "a"
    publicKey := "pk-a"
    primaryEndpoint := "203.0.113.4"
    endpoints := ["203.0.113.4"]
    grpcPort := 8443
    raftPort := 9443
    wireguardPort := 51820
    assignIpv4 := false
    preferRaftIpv6 := false
    asVoter := false }

def joinEnvC4 : JoinEnv :=
  { isLeader := true
    ulaPrefix := some { addr := "fd00::", bits := 48 }
    getULAPrefix := Except.error "unused"
    parseKey := fun k => Except.ok k
    parseAddr := fun a => Except.ok a
    peersGet := fun x => if x = "a" then GetResult.found peerC4 else GetResult.notFound
    random64 := fun _ => Except.ok { addr := "fd00::ffff", bits := 112 }
    updateResult := fun p => Except.ok p
    createResult := fun p => Except.ok p
    ipamAcquire := fun _ => Except.error "unused"
    listPeers := fun _ => Except.ok []
    addVoterOk := fun _ _ => true
    addNonVoterOk := fun _ _ => true }

/-- C4 counterexample: a Join identical to the stored record succeeds and
still performs a registry write — `peers.Update` is called
unconditionally at line 105, the field-wise diff only governs the
in-memory assignments — contradicting "performs no write to the
registry". -/
theorem join_identical_rejoin_writes_counterexample :
    (Join joinEnvC4 reqC4).result = Except.ok
      { networkIpv6 := "fd00::a/112", addressIpv4 := "", peers := [] } ∧
    (Join joinEnvC4 reqC4).writes = [RegistryWrite.update peerC4] ∧
    ¬ (Join joinEnvC4 reqC4).writes = [] := by
  refine ⟨by decide, by decide, by decide⟩

theorem join_upsert_always_writes_witness :
    joinEnvC4.peersGet reqC4.id = GetResult.found peerC4 ∧
    (joinUpsert joinEnvC4 reqC4 { addr := "fd00::", bits := 48 }
        { publicKey := "pk-a", primaryEndpoint := some "203.0.113.4",
          endpoints := ["203.0.113.4"] }).2 =
      [RegistryWrite.update
        (applyUpdates peerC4 reqC4
          { publicKey := "pk-a", primaryEndpoint := some "203.0.113.4",
            endpoints := ["203.0.113.4"] })] ∧
    applyUpdates peerC4 reqC4
        { publicKey := "pk-a", primaryEndpoint := some "203.0.113.4",
          endpoints := ["203.0.113.4"] } = peerC4 :=
  ⟨by decide,
    (join_upsert_always_writes joinEnvC4 reqC4 { addr := "fd00::", bits := 48 }
        { publicKey := "pk-a", primaryEndpoint := some "203.0.113.4",
          endpoints := ["203.0.113.4"] } peerC4 (by decide)).1,
    (join_upsert_always_writes joinEnvC4 reqC4 { addr := "fd00::", bits := 48 }
        { publicKey := "pk-a", primaryEndpoint := some "203.0.113.4",
          endpoints := ["203.0.113.4"] } peerC4 (by decide)).2
      (by decide) (by decide) (by decide) (by decide) (Or.inr (by decide)) (by decide)⟩

/-- C5 amended: on a leader, the lazy ULA-prefix resolution of lines
42-48 runs before input validation; an empty-id request yields
`InvalidArgument` when the prefix is already cached or the resolution
succeeds, but when the resolution fails the RPC returns `Internal` even
though the id is empty. -/
theorem join_ula_resolution_precedes_validation (env : JoinEnv) (req : JoinRequest)
    (hl : env.isLeader = true) (hid : req.id = "") :
    (env.ulaPrefix = none → ∀ e, env.getULAPrefix = Except.error e →
      (Join env req).result =
        Except.error (Code.internal, "failed to get ULA prefix: " ++ e)) ∧
    (((∃ p, env.ulaPrefix = some p) ∨ (∃ p, env.getULAPrefix = Except.ok p)) →
      (Join env req).result =
        Except.error (Code.invalidArgument, "node id required")) := by
  have hnl : ¬ env.isLeader = false := by simp [hl]
  constructor
  · intro hnone e herr
    unfold Join
    rw [if_neg hnl, hnone, herr]
  · intro hres
    rcases hres with ⟨p, hp⟩ | ⟨p, hp⟩
    · unfold Join
      rw [if_neg hnl, hp]
      unfold joinValidate
      rw [if_pos hid]
    · unfold Join
      rw [if_neg hnl]
      cases hcache : env.ulaPrefix with
      | some q =>
          unfold joinValidate
          rw [if_pos hid]
      | none =>
          rw [hp]
          unfold joinValidate
          rw [if_pos hid]

/-- Environment for the C5 counterexample: leader, no cached ULA prefix,
and the database lookup of the prefix fails. -/
def joinEnvC5 : JoinEnv :=
  { isLeader := true
    ulaPrefix := none
    getULAPrefix := Except.error "boom"
    parseKey := fun k => Except.ok k
    parseAddr := fun a => Except.ok a
    peersGet := fun _ => GetResult.notFound
    random64 := fun _ => Except.ok { addr := "fd00::1", bits := 112 }
    updateResult := fun p => Except.ok p
    createResult := fun p => Except.ok p
    ipamAcquire := fun _ => Except.ok { addr := "172.16.0.1", bits := 32 }
    listPeers := fun _ => Except.ok []
    addVoterOk := fun _ _ => true
    addNonVoterOk := fun _ _ => true }

/-- The empty-id request of C5. -/
def reqEmptyId : JoinRequest :=
  { id := ""
    publicKey := "pk"
    primaryEndpoint := ""
    endpoints := []
    grpcPort := 8443
    raftPort := 9443
    wireguardPort := 51820
    assignIpv4 := false
    preferRaftIpv6 := false
    asVoter := true }

/-- C5 counterexample: on a leader, a Join with empty id returns
`Internal` when the lazy ULA-prefix resolution fails, because lines 42-48
run before the validation of lines 50-53 — validation is not step 1. -/
theorem join_validation_order_counterexample :
    joinEnvC5.isLeader = true ∧ reqEmptyId.id = "" ∧
    (Join joinEnvC5 reqEmptyId).result =
      Except.error (Code.internal, "failed to get ULA prefix: boom") ∧
    ¬ (Join joinEnvC5 reqEmptyId).result =
      Except.error (Code.invalidArgument, "node id required") := by
  refine ⟨rfl, rfl, by decide, by decide⟩

theorem join_ula_resolution_precedes_validation_witness :
    joinEnvC5.isLeader = true ∧ reqEmptyId.id = "" ∧
    joinEnvC5.ulaPrefix = none ∧
    joinEnvC5.getULAPrefix = Except.error "boom" ∧
    (Join joinEnvC5 reqEmptyId).result =
      Except.error (Code.internal, "failed to get ULA prefix: boom") :=
  ⟨rfl, rfl, rfl, rfl,
    (join_ula_resolution_precedes_validation joinEnvC5 reqEmptyId rfl rfl).1
      rfl "boom" rfl⟩

/-! ## DeleteNetworkACL admin RPC (pkg/services/admin, src/pkg/services/options_meshdns.go
lines 160-181) -/

/-- Modelled from the spec: the `networking` package defining the
system-reserved ACL names is not under src (only this caller and its test,
which uses `networking.BootstrapNodesNetworkACLName`, are).  §6 of the
spec names `bootstrap-nodes` as a system-reserved ACL name. -/
def IsSystemNetworkACL (name : String) : Bool := name == "bootstrap-nodes"

/-- Storage mutations performed by the admin handler. -/
inductive AclStoreOp
  | deleteACL (name : String)
deriving DecidableEq, Repr

/-- Environment of the handler: leadership, the rbac evaluation outcome
and the result of the delegated storage deletion. -/
structure AclEnv where
  isLeader : Bool
  rbacAllowed : Bool
  deleteResult : String → Except String Unit

/-- `DeleteNetworkACL`, lines 160-181: leader check, empty-name check,
rbac evaluation (denial, with or without error, yields
`PermissionDenied`), system-reserved-name check, then the delegated
deletion (`Internal` on error, empty response on success). -/
def DeleteNetworkACL (env : AclEnv) (name : String) :
    Except (Code × String) Unit × List AclStoreOp :=
  if env.isLeader = false then
    (Except.error (Code.failedPrecondition, "not the leader"), [])
  else if name = "" then
    (Except.error (Code.invalidArgument, "acl name is required"), [])
  else if env.rbacAllowed = false then
    (Except.error (Code.permissionDenied,
      "caller does not have permission to delete network acls"), [])
  else if IsSystemNetworkACL name = true then
    (Except.error (Code.invalidArgument, "cannot delete system network acls"), [])
  else
    match env.deleteResult name with
    | Except.error m => (Except.error (Code.internal, m), [AclStoreOp.deleteACL name])
    | Except.ok _ => (Except.ok (), [AclStoreOp.deleteACL name])

/-- Environment of the C6 counterexample: leader, caller not authorized. -/
def aclEnvUnauth : AclEnv :=
  { isLeader := true
    rbacAllowed := false
    deleteResult := fun _ => Except.ok () }

/-- C6 counterexample: the rbac check of line 167 precedes the
system-reserved-name check of line 173, so an unauthorized caller
deleting `bootstrap-nodes` gets `PermissionDenied`, not the
`InvalidArgument` the claimed order implies (storage is still never
touched). -/
theorem delete_acl_order_counterexample :
    aclEnvUnauth.isLeader = true ∧
    IsSystemNetworkACL "bootstrap-nodes" = true ∧
    (DeleteNetworkACL aclEnvUnauth "bootstrap-nodes").1 =
      Except.error (Code.permissionDenied,
        "caller does not have permission to delete network acls") ∧
    (DeleteNetworkACL aclEnvUnauth "bootstrap-nodes").2 = [] ∧
    ¬ (DeleteNetworkACL aclEnvUnauth "bootstrap-nodes").1 =
      Except.error (Code.invalidArgument, "cannot delete system network acls") := by
  refine ⟨rfl, rfl, by decide, by decide, by decide⟩

/-- C6 amended: the checks run in the order leader
(`FailedPrecondition`) → empty name (`InvalidArgument`) → authorization
(`PermissionDenied`) → system-reserved name (`InvalidArgument`) →
delegated mutation (`Internal` on storage error); storage is touched only
when every check passes, so a system-reserved name such as
`bootstrap-nodes` is never deleted — an authorized caller gets
`InvalidArgument`, an unauthorized caller gets `PermissionDenied`. -/
theorem delete_acl_check_order (env : AclEnv) (name : String) :
    (env.isLeader = false →
      (DeleteNetworkACL env name).1 =
        Except.error (Code.failedPrecondition, "not the leader") ∧
      (DeleteNetworkACL env name).2 = []) ∧
    (env.isLeader = true → name = "" →
      (DeleteNetworkACL env name).1 =
        Except.error (Code.invalidArgument, "acl name is required") ∧
      (DeleteNetworkACL env name).2 = []) ∧
    (env.isLeader = true → ¬ name = "" → env.rbacAllowed = false →
      (DeleteNetworkACL env name).1 =
        Except.error (Code.permissionDenied,
          "caller does not have permission to delete network acls") ∧
      (DeleteNetworkACL env name).2 = []) ∧
    (env.isLeader = true → ¬ name = "" → env.rbacAllowed = true →
      IsSystemNetworkACL name = true →
      (DeleteNetworkACL env name).1 =
        Except.error (Code.invalidArgument, "cannot delete system network acls") ∧
      (DeleteNetworkACL env name).2 = []) ∧
    (env.isLeader = true → ¬ name = "" → env.rbacAllowed = true →
      IsSystemNetworkACL name = false →
      (DeleteNetworkACL env name).2 = [AclStoreOp.deleteACL name]) := by
  refine ⟨?_, ?_, ?_, ?_, ?_⟩
  · intro h
    constructor <;> simp [DeleteNetworkACL, h]
  · intro h hn
    constructor <;> simp [DeleteNetworkACL, h, hn]
  · intro h hn hr
    constructor <;> simp [DeleteNetworkACL, h, hn, hr]
  · intro h hn hr hsys
    constructor <;> simp [DeleteNetworkACL, h, hn, hr, hsys]
  · intro h hn hr hsys
    cases hd : env.deleteResult name <;>
      simp [DeleteNetworkACL, h, hn, hr, hsys, hd]

/-- Environment of the C6 witness: leader, caller authorized. -/
def aclEnvAuth : AclEnv :=
  { isLeader := true
    rbacAllowed := true
    deleteResult := fun _ => Except.ok () }

theorem delete_acl_check_order_witness :
    aclEnvAuth.isLeader = true ∧
    aclEnvAuth.rbacAllowed = true ∧
    IsSystemNetworkACL "bootstrap-nodes" = true ∧
    (DeleteNetworkACL aclEnvAuth "bootstrap-nodes").1 =
      Except.error (Code.invalidArgument, "cannot delete system network acls") ∧
    (DeleteNetworkACL aclEnvAuth "bootstrap-nodes").2 = [] :=
  ⟨rfl, rfl, rfl,
    ((delete_acl_check_order aclEnvAuth "bootstrap-nodes").2.2.2.1
        rfl (by decide) rfl rfl).1,
    ((delete_acl_check_order aclEnvAuth "bootstrap-nodes").2.2.2.1
        rfl (by decide) rfl rfl).2⟩

/-! ## Campfire rendezvous (pkg/campfire/campfire.go) -/

/-- A Go channel: nil (the zero value), made with a capacity, or closed. -/
inductive GoChanState
  | nilChan
  | madeChan (cap : Nat)
  | closedChan
deriving DecidableEq, Repr

/-- A Go runtime panic relevant here: `close` of a nil or closed channel. -/
inductive GoPanic
  | closeOfNilChannel
  | closeOfClosedChannel
deriving DecidableEq, Repr

/-- Go `close`: panics on a nil channel and on a closed channel. -/
def goClose : GoChanState → Except GoPanic GoChanState
  | GoChanState.nilChan => Except.error GoPanic.closeOfNilChannel
  | GoChanState.madeChan _ => Except.ok GoChanState.closedChan
  | GoChanState.closedChan => Except.error GoPanic.closeOfClosedChannel

/-- The channel fields of a `CampFire` (campfire.go lines 42-49), plus
the detached read-write-closer handle. -/
structure CampFireState where
  peerConnection : Nat
  rwc : Option Nat
  errc : GoChanState
  readyc : GoChanState
  closec : GoChanState
deriving DecidableEq, Repr

/-- The struct literal of `New`, lines 78-82: `PeerConnection`, `errc`
(buffered, capacity 1) and `closec` are set; every other field keeps Go's
zero value — in particular `readyc` stays nil. -/
def newCampFireState (conn : Nat) : CampFireState :=
  { peerConnection := conn
    rwc := none
    errc := GoChanState.madeChan 1
    readyc := GoChanState.nilChan
    closec := GoChanState.madeChan 0 }

/-- `Ready()`, lines 189-191: returns the `readyc` field as-is. -/
def CampFireReady (cf : CampFireState) : GoChanState := cf.readyc

/-- `Errors()`, lines 185-187: returns the `errc` field as-is. -/
def CampFireErrors (cf : CampFireState) : GoChanState := cf.errc

/-- The data-channel `OnOpen` handler, lines 101-112: on a `Detach`
failure the error is sent on `errc` and the handler returns; on success
the stream is stored and `close(cf.errc)` then `close(cf.readyc)` run.
The result is the updated state (or the panic that occurred) paired with
the errors sent on `errc`. -/
def campfireOnOpen (cf : CampFireState) (detachResult : Except String Nat) :
    Except GoPanic CampFireState × List String :=
  match detachResult with
  | Except.error e => (Except.ok cf, [e])
  | Except.ok rw =>
      match goClose cf.errc with
      | Except.error p => (Except.error p, [])
      | Except.ok errc1 =>
          match goClose cf.readyc with
          | Except.error p => (Except.error p, [])
          | Except.ok readyc1 =>
              (Except.ok { cf with rwc := some rw, errc := errc1, readyc := readyc1 }, [])

/-- `Close()`, lines 180-183: `cf.PeerConnection.Close()` is called, its
result discarded, and nil is returned. -/
def campfireClose (pcCloseResult : Except String Unit) : Except String Unit :=
  match pcCloseResult with
  | _ => Except.ok ()

/-- C10: `New` never initializes `readyc` — only `errc` and `closec` are
allocated — so `Ready()` returns the nil channel (every receive blocks
forever) and the `OnOpen` handler, after a successful detach, panics by
closing the nil `readyc`. -/
theorem campfire_readyc_never_initialized (conn : Nat) :
    (newCampFireState conn).readyc = GoChanState.nilChan ∧
    (newCampFireState conn).errc = GoChanState.madeChan 1 ∧
    (newCampFireState conn).closec = GoChanState.madeChan 0 ∧
    CampFireReady (newCampFireState conn) = GoChanState.nilChan ∧
    (∀ rw : Nat,
      (campfireOnOpen (newCampFireState conn) (Except.ok rw)).1 =
        Except.error GoPanic.closeOfNilChannel) := by
  refine ⟨rfl, rfl, rfl, rfl, fun rw => rfl⟩

/-- C8 counterexample: a failing peer-connection close is discarded by
`CampFire.Close`, which returns nil (ok) — the error is neither returned
nor delivered anywhere, contradicting "never silently swallowed". -/
theorem campfire_close_swallows_error_counterexample :
    campfireClose (Except.error "close failed") = Except.ok () ∧
    ¬ campfireClose (Except.error "close failed") =
      Except.error "close failed" := by
  exact ⟨rfl, by decide⟩

/-- C8 amended: an error inside the data-channel open handler (a failing
`Detach`) is delivered on the `Errors()` channel; but `CampFire.Close`
discards the result of the underlying peer-connection close and always
returns nil, whatever that result was. -/
theorem campfire_error_delivery (cf : CampFireState) (e : String)
    (r : Except String Unit) :
    (campfireOnOpen cf (Except.error e)).2 = [e] ∧
    (campfireOnOpen cf (Except.error e)).1 = Except.ok cf ∧
    campfireClose r = Except.ok () := by
  refine ⟨rfl, rfl, ?_⟩
  cases r <;> rfl

theorem campfire_error_delivery_witness :
    (campfireOnOpen (newCampFireState 0) (Except.error "detach failed")).2 =
      ["detach failed"] ∧
    campfireClose (Except.error "pc close failed") = Except.ok () :=
  ⟨(campfire_error_delivery (newCampFireState 0) "detach failed"
      (Except.error "pc close failed")).1,
    (campfire_error_delivery (newCampFireState 0) "detach failed"
      (Except.error "pc close failed")).2.2⟩

theorem campfire_readyc_never_initialized_witness :
    CampFireReady (newCampFireState 7) = GoChanState.nilChan ∧
    (campfireOnOpen (newCampFireState 7) (Except.ok 42)).1 =
      Except.error GoPanic.closeOfNilChannel :=
  ⟨(campfire_readyc_never_initialized 7).2.2.2.1,
    (campfire_readyc_never_initialized 7).2.2.2.2 42⟩

/-! ### FindCampFire (C9)

Modelled from the spec: the implementation of `FindCampFire` is not under
src — only its caller `campfire.New` (campfire.go line 62) is.  Per §4.5
of the spec, the pre-shared key and the relay list are hashed together
with the current epoch (UTC time divided by the agreed epoch length) to
produce an index into the relay list and an opaque 32-byte secret; the
derivation is pure. -/

/-- Modelled from the spec: the agreed epoch length in seconds (an hour,
the spec's example quantum). -/
def campfireEpochLength : Nat := 3600

/-- Modelled from the spec: the epoch of a UTC timestamp is the time
divided by the epoch length. -/
def campfireEpoch (t : Nat) : Nat := t / campfireEpochLength

/-- Modelled from the spec: a deterministic hash of the PSK bytes
together with the epoch number. -/
def campfireHash (psk : List Nat) (epoch : Nat) : Nat :=
  psk.foldl (fun h b => (h * 31 + b) % 2 ^ 64) (epoch % 2 ^ 64)

/-- Modelled from the spec: the opaque 32-byte secret derived from the
hash. -/
def campfireSecret (psk : List Nat) (epoch : Nat) : List Nat :=
  (List.range 32).map (fun i => (campfireHash psk epoch + i * 2654435761) % 256)

/-- A rendezvous location: the chosen relay and the derived secret. -/
structure CampfireLocation where
  turnServer : String
  secret : List Nat
deriving DecidableEq, Repr

/-- Modelled from the spec: `FindCampFire(PSK, relays)` at UTC time `t`
hashes the inputs with the epoch to pick a relay index and the secret.
An empty relay list yields no location. -/
def FindCampFire (psk : List Nat) (relays : List String) (t : Nat) :
    Option CampfireLocation :=
  if relays.length = 0 then none
  else
    some { turnServer := relays.getD (campfireHash psk (campfireEpoch t) % relays.length) ""
           secret := campfireSecret psk (campfireEpoch t) }

/-- C9: `FindCampFire` is a pure function of the PSK, the relay list and
the epoch — two invocations at any two times in the same epoch return the
same (relay, secret) pair, on any peer. -/
theorem findCampFire_pure_in_epoch (psk : List Nat) (relays : List String)
    (t1 t2 : Nat) (h : campfireEpoch t1 = campfireEpoch t2) :
    FindCampFire psk relays t1 = FindCampFire psk relays t2 := by
  unfold FindCampFire
  rw [h]

theorem findCampFire_pure_in_epoch_witness :
    campfireEpoch 100 = campfireEpoch 3599 ∧
    FindCampFire [104, 105] ["turn:r1", "turn:r2"] 100 =
      FindCampFire [104, 105] ["turn:r1", "turn:r2"] 3599 :=
  ⟨by decide,
    findCampFire_pure_in_epoch [104, 105] ["turn:r1", "turn:r2"] 100 3599 (by decide)⟩

end Webmesh
